import Mathlib

/-!
Shallow embedding of the UUID generators of this repository:

* `src/mysys/my_uuid_v4.c`   — random generator (UUIDv4);
* `src/mysys/my_uuid_v7.c`   — monotonic generator, coarse variant
  (millisecond ticks, plain random 12-bit field), called `B` below;
* `src/unnamed/part_000`     — monotonic generator, sub-millisecond
  variant (microsecond ticks, scaled sub-ms 12-bit field, backpressure
  sleep), called `A` below.

Machine integers are embedded as `Nat` with an explicit `% 2^w` at every
point where the C computation can wrap (`uint64` additions in the stalled
branch); subtractions guarded by the surrounding `if` never wrap in the C
code, so plain `Nat` subtraction is used there.  The external
collaborators (clock `my_hrtime`, CSPRNG `my_random_bytes`, `my_sleep`,
`my_printf_error`) are passed in as explicit inputs / recorded as events:
the clock reading and the drawn random words are arguments, the sleeps
performed are returned as the list of arguments passed to `my_sleep`, and
the number of `my_printf_error` invocations is returned in `errors`.
-/

namespace UuidSrv

/-- Big-endian store `mi_intNstore` of the low `w` bytes of `v`
(byte `i` is `v >> 8*(w-1-i) & 0xFF`). -/
def beBytes (w v : Nat) : List Nat :=
  (List.range w).map (fun i => v / 256 ^ (w - 1 - i) % 256)

/-- The 48-bit timestamp field: bytes 0-5 of an identifier read back as a
big-endian number. -/
def field48 (bs : List Nat) : Nat :=
  bs.getD 0 0 * 256 ^ 5 + bs.getD 1 0 * 256 ^ 4 + bs.getD 2 0 * 256 ^ 3 +
  bs.getD 3 0 * 256 ^ 2 + bs.getD 4 0 * 256 + bs.getD 5 0

/-- The low 12 bits of bytes 6-7 of an identifier read back as a
big-endian number (the payload under the version nibble). -/
def low12 (bs : List Nat) : Nat :=
  bs.getD 6 0 % 16 * 256 + bs.getD 7 0

/-! ### Random generator: `src/mysys/my_uuid_v4.c` -/

/-- Result of one `my_uuid_v4` call: the 16 output bytes and the number of
`my_printf_error` invocations made during the call. -/
structure ResultV4 where
  out : List Nat
  errors : Nat
  deriving Repr, DecidableEq

/-- Function `my_uuid_v4(uchar *to)` from `src/mysys/my_uuid_v4.c`.

`ok1`, `ok2`, `ok3` are the outcomes the CSPRNG collaborator would give to
the three `my_random_bytes` draws (48-bit `random_a`, 16-bit `random_b`,
64-bit `random_c`) *if that draw is reached*: the C condition
`f(a) || f(b) || f(c)` short-circuits, so a failing draw skips the later
draws.  `a`, `b`, `c` are the contents of the three variables after the
draw phase (drawn bytes, or whatever junk the variable held when its draw
was skipped or failed).  The masks are low-bit masks, so `x & mask` is
`x % (mask+1)`, and `| UUID_VERSION` / `| UUID_VARIANT` OR constants with
zero low bits into the masked value, hence are addition.
-/
def my_uuid_v4 (ok1 ok2 ok3 : Bool) (a b c : Nat) : ResultV4 :=
  -- if (f(random_a) || f(random_b) || f(random_c)) my_printf_error(...)
  let errors := if ok1 && ok2 && ok3 then 0 else 1
  -- random_b_and_version = (random_b & 0x0FFF) | 0x4000
  let random_b_and_version := 0x4000 + b % 0x1000
  -- random_c_and_variant = (random_c & 0x3FFFFFFFFFFFFFFF) | 0x8000000000000000
  let random_c_and_variant := 2 ^ 63 + c % 2 ^ 62
  { out := beBytes 6 a ++ beBytes 2 random_b_and_version ++
           beBytes 8 random_c_and_variant
    errors := errors }

/-- Number of `my_random_bytes` draws in one `my_uuid_v4` call that are
actually made and fail: draw 2 is only made when draw 1 succeeded, draw 3
only when draws 1 and 2 succeeded (the `||` short-circuits). -/
def failedDrawsV4 (ok1 ok2 ok3 : Bool) : Nat :=
  (if ok1 then 0 else 1) +
  (if ok1 && !ok2 then 1 else 0) +
  (if ok1 && ok2 && !ok3 then 1 else 0)

/-! ### Monotonic generator, coarse variant: `src/mysys/my_uuid_v7.c` -/

/-- The process-wide state of `src/mysys/my_uuid_v7.c`: the `my_uuid_v7_inited`
flag and the two lock-guarded counters `milliseconds` (the debt) and
`uuid_time` (the last reconciled tick, in milliseconds). -/
structure StateB where
  inited : Bool
  milliseconds : Nat
  uuid_time : Nat
  deriving Repr, DecidableEq

/-- Function `my_uuid_v7_init` of `src/mysys/my_uuid_v7.c`: no-op when already
inited; otherwise sets the flag and zeroes `milliseconds`.  The static
`uuid_time` is *not* touched (its `= 0` initializer runs at process load,
not here). -/
def my_uuid_v7_initB (s : StateB) : StateB :=
  if s.inited then s
  else { inited := true, milliseconds := 0, uuid_time := s.uuid_time }

/-- Function `my_uuid_v7_end` of `src/mysys/my_uuid_v7.c`: clears the inited flag
(and destroys the mutex); the counters are left as they are. -/
def my_uuid_v7_endB (s : StateB) : StateB :=
  if s.inited then { s with inited := false } else s

/-- Result of one coarse-variant `my_uuid_v7` call.  `errors` counts
`my_printf_error` invocations: this file never checks the return value of
`my_random_bytes`, so `errors` is always `0`. -/
structure ResultB where
  state : StateB
  out : List Nat
  errors : Nat
  deriving Repr, DecidableEq

/-- Lock-protected section of `my_uuid_v7` in `src/mysys/my_uuid_v7.c`:
given the stored `uuid_time`, `milliseconds` and the clock value
`tv = my_hrtime().val / 1000`, returns the reconciled `tv` (written back
to `uuid_time`) and the new `milliseconds`.  The `(uint16)` cast in
`MY_MIN(milliseconds, (uint16)(tv - uuid_time - 1))` is `% 2^16`; the
`uint64` computations `milliseconds += uuid_time - tv + 1` and
`tv = uuid_time + 1` wrap modulo `2^64`; the guarded subtractions
`tv - delta` and `milliseconds - delta` never wrap (`delta` is bounded by
both minuends). -/
def reconcileB (uuid_time milliseconds tv : Nat) : Nat × Nat :=
  if uuid_time < tv then
    if milliseconds ≠ 0 then
      let delta := min milliseconds ((tv - uuid_time - 1) % 2 ^ 16)
      (tv - delta, milliseconds - delta)
    else (tv, milliseconds)
  else
    ((uuid_time + 1) % 2 ^ 64,
     (milliseconds + (uuid_time - tv + 1)) % 2 ^ 64)

/-- Function `my_uuid_v7(uchar *to)` from `src/mysys/my_uuid_v7.c`.

`hrtime` is `my_hrtime().val` (microseconds, a `uint64`); the code works
on `tv = hrtime / 1000`.  `rand_a` (drawn as `uint16`) and `rand_b`
(drawn as `uint64`) are the two CSPRNG words; `okA`/`okB` are the
outcomes of the two `my_random_bytes` calls — the C code discards both
return values, so they influence nothing and no error is ever reported.
-/
def my_uuid_v7B (s : StateB) (hrtime rand_a rand_b : Nat) (okA okB : Bool)
    : ResultB :=
  let tv := hrtime / 1000
  let r := reconcileB s.uuid_time s.milliseconds tv
  -- my_random_bytes(&rand_a, 2); my_random_bytes(&rand_b, 8);  (results ignored)
  let unix_ts_ms := r.1 % 2 ^ 48
  let version_and_rand_a := 0x7000 + rand_a % 0x1000
  let variant_and_rand_b := 2 ^ 63 + rand_b % 2 ^ 62
  { state := { inited := s.inited, milliseconds := r.2, uuid_time := r.1 }
    out := beBytes 6 unix_ts_ms ++ beBytes 2 version_and_rand_a ++
           beBytes 8 variant_and_rand_b
    errors := 0 }

/-! ### Monotonic generator, sub-millisecond variant: `src/unnamed/part_000` -/

/-- The process-wide state of `src/unnamed/part_000`: the inited flag and
the lock-guarded `borrowed_microseconds` (the debt) and `uuid_time` (the
last reconciled tick, in microseconds). -/
structure StateA where
  inited : Bool
  borrowed_microseconds : Nat
  uuid_time : Nat
  deriving Repr, DecidableEq

/-- Function `my_uuid_v7_init` of `src/unnamed/part_000`: no-op when already
inited; otherwise sets the flag and zeroes `borrowed_microseconds`,
leaving the static `uuid_time` as it is. -/
def my_uuid_v7_initA (s : StateA) : StateA :=
  if s.inited then s
  else { inited := true, borrowed_microseconds := 0, uuid_time := s.uuid_time }

/-- Function `my_uuid_v7_end` of `src/unnamed/part_000`. -/
def my_uuid_v7_endA (s : StateA) : StateA :=
  if s.inited then { s with inited := false } else s

/-- Constant `MAX_BORROWED_MICROSECONDS` of `src/unnamed/part_000`. -/
def MAX_BORROWED_MICROSECONDS : Nat := 500000

/-- Constant `SLEEP_MILLISECONDS` of `src/unnamed/part_000`, the argument
passed to `my_sleep`. -/
def SLEEP_MILLISECONDS : Nat := 250

/-- Value `(uint16)(MICROSECONDS_TO_12BIT_MAPPING_FACTOR * m)` of
`src/unnamed/part_000` for `m = tv % 1000 ∈ [0, 999]`.
`MICROSECONDS_TO_12BIT_MAPPING_FACTOR` is the C double `4.096`
(= 4096/1000 up to the rounding of the literal); for every
`m ∈ [0, 999]` the truncated double product `(uint16)(4.096 * m)` equals
the exact rational floor `4096 * m / 1000` (the nearest double to the
literal lies above 4096/1000 by less than 2⁻⁴⁸, far too little to move
any of these 1000 products across an integer boundary), so the function
is embedded by that exact integer formula. -/
def microsTo12Bit (m : Nat) : Nat := 4096 * m / 1000

/-- Result of one sub-millisecond-variant `my_uuid_v7` call: new state,
output bytes, the list of arguments passed to `my_sleep`, and the number
of `my_printf_error` invocations. -/
structure ResultA where
  state : StateA
  out : List Nat
  sleeps : List Nat
  errors : Nat
  deriving Repr, DecidableEq

/-- Lock-protected section of `my_uuid_v7` in `src/unnamed/part_000`:
given the stored `uuid_time`, `borrowed_microseconds` and the clock value
`tv = my_hrtime().val`, returns the reconciled `tv`, the new
`borrowed_microseconds`, and the list of arguments passed to `my_sleep`.
As in the coarse variant the `(uint16)` cast is `% 2^16` and the
stalled-branch `uint64` computations wrap modulo `2^64`;
`MAX_BORROWED_MICROSECONDS / 2` is `250000`, and the guarded
subtractions never wrap. -/
def reconcileA (uuid_time borrowed tv : Nat) : Nat × Nat × List Nat :=
  if uuid_time < tv then
    if borrowed ≠ 0 then
      let delta := min borrowed ((tv - uuid_time - 1) % 2 ^ 16)
      (tv - delta, borrowed - delta, ([] : List Nat))
    else (tv, borrowed, ([] : List Nat))
  else
    let borrowed' := (borrowed + (uuid_time - tv + 1)) % 2 ^ 64
    let tv' := (uuid_time + 1) % 2 ^ 64
    if MAX_BORROWED_MICROSECONDS < borrowed' then
      -- my_sleep(SLEEP_MILLISECONDS); borrowed -= MAX_BORROWED_MICROSECONDS/2
      (tv', borrowed' - MAX_BORROWED_MICROSECONDS / 2, [SLEEP_MILLISECONDS])
    else (tv', borrowed', ([] : List Nat))

/-- Function `my_uuid_v7(uchar *to)` from `src/unnamed/part_000`.

`hrtime` is `my_hrtime().val` (microseconds, used directly as `tv`);
`rand` is the single 64-bit CSPRNG word and `randOk` the outcome of its
`my_random_bytes` call (checked against `MY_AES_OK`; on failure
`my_printf_error` is invoked once and the call carries on).
-/
def my_uuid_v7A (s : StateA) (hrtime rand : Nat) (randOk : Bool) : ResultA :=
  let r := reconcileA s.uuid_time s.borrowed_microseconds hrtime
  let tv := r.1
  let errors := if randOk then 0 else 1
  let unix_ts_ms := tv / 1000 % 2 ^ 48
  let sub_ms_precision := microsTo12Bit (tv % 1000)
  let version_and_sub_ms_precision := 0x7000 + sub_ms_precision % 0x1000
  let variant_and_rand := 2 ^ 63 + rand % 2 ^ 62
  { state := { inited := s.inited, borrowed_microseconds := r.2.1,
               uuid_time := tv }
    out := beBytes 6 unix_ts_ms ++ beBytes 2 version_and_sub_ms_precision ++
           beBytes 8 variant_and_rand
    sleeps := r.2.2
    errors := errors }

/-! ### Sequential runs -/

/-- A strictly sequential run of the coarse-variant generator: each input
is a `(hrtime, rand_a, rand_b)` triple; returns the emitted identifiers
in order and the final state. -/
def runB (s : StateB) : List (Nat × Nat × Nat) → List (List Nat) × StateB
  | [] => ([], s)
  | (hr, ra, rb) :: rest =>
      let r := my_uuid_v7B s hr ra rb true true
      let rs := runB r.state rest
      (r.out :: rs.1, rs.2)

/-- A strictly sequential run of the sub-millisecond-variant generator:
each input is a `(hrtime, rand)` pair; returns the reconciled ticks
written to `uuid_time`, in order, and the final state. -/
def runATicks (s : StateA) : List (Nat × Nat) → List Nat × StateA
  | [] => ([], s)
  | (hr, r) :: rest =>
      let res := my_uuid_v7A s hr r true
      let rs := runATicks res.state rest
      (res.state.uuid_time :: rs.1, rs.2)

/-! ### Helper lemmas: lock section -/

theorem reconcileA_tick_gt (u d tv : Nat) (h : u + 1 < 2 ^ 64) :
    u < (reconcileA u d tv).1 := by
  unfold reconcileA
  split
  · split
    · dsimp only
      omega
    · omega
  · simp only [MAX_BORROWED_MICROSECONDS, SLEEP_MILLISECONDS]
    split <;> dsimp only <;> omega

theorem reconcileA_tick_le (u d tv : Nat) :
    (reconcileA u d tv).1 ≤ max tv (u + 1) := by
  unfold reconcileA
  split
  · split
    · dsimp only
      omega
    · omega
  · simp only [MAX_BORROWED_MICROSECONDS, SLEEP_MILLISECONDS]
    split <;> dsimp only <;> omega

theorem reconcileB_tick_gt (u d tv : Nat) (h : u + 1 < 2 ^ 64) :
    u < (reconcileB u d tv).1 := by
  unfold reconcileB
  split
  · split
    · dsimp only
      omega
    · omega
  · dsimp only
    omega

theorem reconcileB_tick_le (u d tv : Nat) :
    (reconcileB u d tv).1 ≤ max tv (u + 1) := by
  unfold reconcileB
  split
  · split
    · dsimp only
      omega
    · omega
  · dsimp only
    omega

theorem v7A_state (s : StateA) (hr r : Nat) (ok : Bool) :
    (my_uuid_v7A s hr r ok).state =
      { inited := s.inited,
        borrowed_microseconds :=
          (reconcileA s.uuid_time s.borrowed_microseconds hr).2.1,
        uuid_time := (reconcileA s.uuid_time s.borrowed_microseconds hr).1 } :=
  rfl

theorem v7A_sleeps (s : StateA) (hr r : Nat) (ok : Bool) :
    (my_uuid_v7A s hr r ok).sleeps =
      (reconcileA s.uuid_time s.borrowed_microseconds hr).2.2 :=
  rfl

theorem v7B_state (s : StateB) (hr ra rb : Nat) (oa ob : Bool) :
    (my_uuid_v7B s hr ra rb oa ob).state =
      { inited := s.inited,
        milliseconds := (reconcileB s.uuid_time s.milliseconds (hr / 1000)).2,
        uuid_time := (reconcileB s.uuid_time s.milliseconds (hr / 1000)).1 } :=
  rfl

/-! ### Helper lemmas: byte packing -/

theorem pack_eq (v x y : Nat) :
    beBytes 6 v ++ beBytes 2 x ++ beBytes 8 y =
      [v / 256 ^ 5 % 256, v / 256 ^ 4 % 256, v / 256 ^ 3 % 256,
       v / 256 ^ 2 % 256, v / 256 ^ 1 % 256, v / 256 ^ 0 % 256,
       x / 256 ^ 1 % 256, x / 256 ^ 0 % 256,
       y / 256 ^ 7 % 256, y / 256 ^ 6 % 256, y / 256 ^ 5 % 256,
       y / 256 ^ 4 % 256, y / 256 ^ 3 % 256, y / 256 ^ 2 % 256,
       y / 256 ^ 1 % 256, y / 256 ^ 0 % 256] :=
  rfl

theorem pack_length (v x y : Nat) :
    (beBytes 6 v ++ beBytes 2 x ++ beBytes 8 y).length = 16 := by
  rw [pack_eq]
  rfl

theorem field48_pack (v x y : Nat) :
    field48 (beBytes 6 v ++ beBytes 2 x ++ beBytes 8 y) = v % 2 ^ 48 := by
  show v / 256 ^ 5 % 256 * 256 ^ 5 + v / 256 ^ 4 % 256 * 256 ^ 4 +
       v / 256 ^ 3 % 256 * 256 ^ 3 + v / 256 ^ 2 % 256 * 256 ^ 2 +
       v / 256 ^ 1 % 256 * 256 + v / 256 ^ 0 % 256 = v % 2 ^ 48
  norm_num
  omega

theorem byte6_pack (v x y : Nat) :
    (beBytes 6 v ++ beBytes 2 x ++ beBytes 8 y).getD 6 0 = x / 256 % 256 := by
  show x / 256 ^ 1 % 256 = x / 256 % 256
  norm_num

theorem byte7_pack (v x y : Nat) :
    (beBytes 6 v ++ beBytes 2 x ++ beBytes 8 y).getD 7 0 = x % 256 := by
  show x / 256 ^ 0 % 256 = x % 256
  norm_num

theorem byte8_pack (v x y : Nat) :
    (beBytes 6 v ++ beBytes 2 x ++ beBytes 8 y).getD 8 0 = y / 2 ^ 56 % 256 := by
  show y / 256 ^ 7 % 256 = y / 2 ^ 56 % 256
  norm_num

theorem v7B_out (s : StateB) (hr ra rb : Nat) (oa ob : Bool) :
    (my_uuid_v7B s hr ra rb oa ob).out =
      beBytes 6 ((reconcileB s.uuid_time s.milliseconds (hr / 1000)).1 % 2 ^ 48) ++
      beBytes 2 (0x7000 + ra % 0x1000) ++
      beBytes 8 (2 ^ 63 + rb % 2 ^ 62) :=
  rfl

theorem v7A_out (s : StateA) (hr r : Nat) (ok : Bool) :
    (my_uuid_v7A s hr r ok).out =
      beBytes 6
        ((reconcileA s.uuid_time s.borrowed_microseconds hr).1 / 1000 % 2 ^ 48) ++
      beBytes 2
        (0x7000 + microsTo12Bit
          ((reconcileA s.uuid_time s.borrowed_microseconds hr).1 % 1000) % 0x1000) ++
      beBytes 8 (2 ^ 63 + r % 2 ^ 62) :=
  rfl

theorem v7B_field48 (s : StateB) (hr ra rb : Nat) (oa ob : Bool) :
    field48 (my_uuid_v7B s hr ra rb oa ob).out =
      (reconcileB s.uuid_time s.milliseconds (hr / 1000)).1 % 2 ^ 48 := by
  rw [v7B_out, field48_pack]
  omega

/-! ### Helper lemmas: sequential runs -/

theorem runB_chain (ins : List (Nat × Nat × Nat)) : ∀ s : StateB,
    s.uuid_time + ins.length < 2 ^ 48 →
    (∀ p ∈ ins, p.1 / 1000 + ins.length < 2 ^ 48) →
    List.Chain' (· < ·) (s.uuid_time :: (runB s ins).1.map field48) := by
  induction ins with
  | nil =>
      intro s _ _
      simp [runB]
  | cons p rest ih =>
      intro s hs hc
      obtain ⟨hr, ra, rb⟩ := p
      have hhr : hr / 1000 + ((hr, ra, rb) :: rest).length < 2 ^ 48 :=
        hc (hr, ra, rb) (List.mem_cons_self _ _)
      simp only [List.length_cons] at hs hhr
      have hu1 : s.uuid_time + 1 < 2 ^ 64 := by omega
      have htick := reconcileB_tick_gt s.uuid_time s.milliseconds (hr / 1000) hu1
      have htle := reconcileB_tick_le s.uuid_time s.milliseconds (hr / 1000)
      have htick48 :
          (reconcileB s.uuid_time s.milliseconds (hr / 1000)).1 + rest.length
            < 2 ^ 48 := by
        omega
      have hfield :
          field48 (my_uuid_v7B s hr ra rb true true).out =
            (reconcileB s.uuid_time s.milliseconds (hr / 1000)).1 := by
        rw [v7B_field48]
        omega
      have hstate :
          (my_uuid_v7B s hr ra rb true true).state.uuid_time =
            (reconcileB s.uuid_time s.milliseconds (hr / 1000)).1 := by
        rw [v7B_state]
      simp only [runB, List.map_cons]
      rw [List.chain'_cons]
      refine ⟨by rw [hfield]; exact htick, ?_⟩
      have hrest := ih (my_uuid_v7B s hr ra rb true true).state
        (by rw [hstate]; omega)
        (fun q hq => by
          have h := hc q (List.mem_cons_of_mem _ hq)
          simp only [List.length_cons] at h
          omega)
      rw [hstate] at hrest
      rw [hfield]
      exact hrest

theorem tri_succ (n : Nat) : (n + 1) * (n + 2) / 2 = n * (n + 1) / 2 + (n + 1) := by
  have h : (n + 1) * (n + 2) = n * (n + 1) + 2 * (n + 1) := by ring
  rw [h, Nat.add_mul_div_left _ _ (by norm_num : (0 : Nat) < 2)]

theorem reconcileA_stalled (u d tv : Nat) (h1 : tv ≤ u)
    (h2 : d + (u - tv + 1) ≤ 500000) (h3 : u + 1 < 2 ^ 64) :
    reconcileA u d tv = (u + 1, d + (u - tv + 1), []) := by
  unfold reconcileA
  rw [if_neg (by omega : ¬ u < tv)]
  have e1 : (d + (u - tv + 1)) % 2 ^ 64 = d + (u - tv + 1) :=
    Nat.mod_eq_of_lt (by omega)
  have e2 : (u + 1) % 2 ^ 64 = u + 1 := Nat.mod_eq_of_lt h3
  simp only [MAX_BORROWED_MICROSECONDS, SLEEP_MILLISECONDS, e1, e2]
  rw [if_neg (by omega)]

theorem runA_stalled (K : Nat) : ∀ i d c : Nat,
    c + i + K < 2 ^ 64 →
    d + K * i + K * (K + 1) / 2 ≤ 500000 →
    runATicks ⟨true, d, c + i⟩ (List.replicate K (c, 0)) =
      ((List.range K).map (fun t => c + i + 1 + t),
       ⟨true, d + K * i + K * (K + 1) / 2, c + i + K⟩) := by
  induction K with
  | zero =>
      intro i d c _ _
      simp [runATicks]
  | succ K ih =>
      intro i d c h1 h2
      have e0 : c + i - c = i := by omega
      have e1 : (K + 1) * i = K * i + i := by ring
      have e2 : (K + 1) * (K + 1 + 1) / 2 = K * (K + 1) / 2 + (K + 1) :=
        tri_succ K
      have e3 : K * (i + 1) = K * i + K := by ring
      have hrec : reconcileA (c + i) d c = (c + i + 1, d + (i + 1), []) := by
        have h := reconcileA_stalled (c + i) d c (by omega)
          (by rw [e0]; omega) (by omega)
        rw [e0] at h
        exact h
      have hstate : (my_uuid_v7A ⟨true, d, c + i⟩ c 0 true).state =
          ⟨true, d + (i + 1), c + i + 1⟩ := by
        rw [v7A_state, hrec]
      rw [List.replicate_succ]
      simp only [runATicks]
      rw [hstate]
      have h1i : c + (i + 1) + K < 2 ^ 64 := by omega
      have h2i : d + (i + 1) + K * (i + 1) + K * (K + 1) / 2 ≤ 500000 := by
        omega
      have hih := ih (i + 1) (d + (i + 1)) c h1i h2i
      rw [show c + (i + 1) = c + i + 1 from rfl] at hih
      rw [hih]
      simp only [Prod.mk.injEq, List.range_succ_eq_map, List.map_cons,
        List.map_map, StateA.mk.injEq]
      have hdebt : d + (i + 1) + K * (i + 1) + K * (K + 1) / 2 =
          d + (K + 1) * i + (K + 1) * (K + 1 + 1) / 2 := by
        rw [e1, e2, e3]
        omega
      have htime : c + i + 1 + K = c + i + (K + 1) := by omega
      refine ⟨?_, trivial, hdebt, htime⟩
      congr 1
      refine List.map_congr_left ?_
      intro t _
      simp only [Function.comp_apply]
      omega

theorem v4_out (ok1 ok2 ok3 : Bool) (a b c : Nat) :
    (my_uuid_v4 ok1 ok2 ok3 a b c).out =
      beBytes 6 a ++ beBytes 2 (0x4000 + b % 0x1000) ++
      beBytes 8 (2 ^ 63 + c % 2 ^ 62) :=
  rfl

theorem reconcileA_backpressure (u d tv : Nat) (h1 : tv ≤ u)
    (h2 : 500000 < (d + (u - tv + 1)) % 2 ^ 64) :
    (reconcileA u d tv).2.2 = [250] ∧
    (reconcileA u d tv).2.1 = (d + (u - tv + 1)) % 2 ^ 64 - 250000 := by
  unfold reconcileA
  rw [if_neg (by omega : ¬ u < tv)]
  simp only [MAX_BORROWED_MICROSECONDS, SLEEP_MILLISECONDS]
  rw [if_pos h2]
  exact ⟨rfl, by norm_num⟩

theorem reconcileA_no_sleep_stalled (u d tv : Nat) (h1 : tv ≤ u)
    (h2 : (d + (u - tv + 1)) % 2 ^ 64 ≤ 500000) :
    (reconcileA u d tv).2.2 = [] := by
  unfold reconcileA
  rw [if_neg (by omega : ¬ u < tv)]
  simp only [MAX_BORROWED_MICROSECONDS, SLEEP_MILLISECONDS]
  rw [if_neg (by omega)]

theorem reconcileA_no_sleep_advance (u d tv : Nat) (h1 : u < tv) :
    (reconcileA u d tv).2.2 = [] := by
  unfold reconcileA
  rw [if_pos h1]
  split <;> rfl

/-! ### Claims -/

/-- Claim C1, counterexample to the statement as given: the stalled branch
computes `tv = uuid_time + 1` in `uint64`, so from the reachable state
with `uuid_time = 2^64 - 1` (reached by one call whose clock reading is
`2^64 - 1`) the next call wraps `uuid_time` around to `0` instead of
increasing it. -/
theorem C1_counterexample :
    ¬ ((my_uuid_v7A (my_uuid_v7_initA ⟨false, 0, 0⟩) (2 ^ 64 - 1) 0 true).state.uuid_time <
        (my_uuid_v7A (my_uuid_v7A (my_uuid_v7_initA ⟨false, 0, 0⟩) (2 ^ 64 - 1) 0 true).state
          5 0 true).state.uuid_time) := by
  decide

/-- Claim C1 (amended): in both monotonic variants, every `generate` call
strictly increases the stored `uuid_time`, provided the stored
`uuid_time` is not the maximal `uint64` value (so that `uuid_time + 1`
does not wrap); the clock reading is arbitrary. -/
theorem C1_theorem (sA : StateA) (hrA rA : Nat) (okA : Bool)
    (sB : StateB) (hrB ra rb : Nat) (oa ob : Bool)
    (hA : sA.uuid_time + 1 < 2 ^ 64) (hB : sB.uuid_time + 1 < 2 ^ 64) :
    sA.uuid_time < (my_uuid_v7A sA hrA rA okA).state.uuid_time ∧
    sB.uuid_time < (my_uuid_v7B sB hrB ra rb oa ob).state.uuid_time := by
  constructor
  · rw [v7A_state]
    exact reconcileA_tick_gt sA.uuid_time sA.borrowed_microseconds hrA hA
  · rw [v7B_state]
    exact reconcileB_tick_gt sB.uuid_time sB.milliseconds (hrB / 1000) hB

/-- Witness for C1 at a concrete input. -/
theorem C1_witness :
    ((⟨true, 7, 100⟩ : StateA).uuid_time + 1 < 2 ^ 64 ∧
     (⟨true, 0, 50⟩ : StateB).uuid_time + 1 < 2 ^ 64) ∧
    (⟨true, 7, 100⟩ : StateA).uuid_time <
      (my_uuid_v7A ⟨true, 7, 100⟩ 200 3 true).state.uuid_time ∧
    (⟨true, 0, 50⟩ : StateB).uuid_time <
      (my_uuid_v7B ⟨true, 0, 50⟩ 200000 1 2 true true).state.uuid_time :=
  ⟨⟨by decide, by decide⟩,
   C1_theorem ⟨true, 7, 100⟩ 200 3 true ⟨true, 0, 50⟩ 200000 1 2 true true
     (by decide) (by decide)⟩

/-- Claim C2, counterexample to the statement as given: in the
sub-millisecond variant two strictly sequential calls whose microsecond
clock readings advance from 500 to 501 (the clock never moves backward)
both emit the 48-bit millisecond field 0, so the field is not strictly
increasing and two outputs share an identical field. -/
theorem C2_counterexample :
    field48 (my_uuid_v7A (my_uuid_v7_initA ⟨false, 0, 0⟩) 500 0 true).out =
      field48 (my_uuid_v7A
        (my_uuid_v7A (my_uuid_v7_initA ⟨false, 0, 0⟩) 500 0 true).state
        501 0 true).out := by
  decide

/-- Claim C2 (amended): in the coarse millisecond variant, across any
strictly sequential run whose millisecond clock readings (and the
starting `uuid_time`) stay far enough below `2^48` that no field
truncation occurs, the emitted 48-bit timestamp fields are pairwise
strictly increasing — in particular pairwise distinct.  (In the
sub-millisecond variant only the reconciled microsecond tick strictly
increases; calls within one millisecond share the 48-bit field, as the
counterexample shows.) -/
theorem C2_theorem (s : StateB) (ins : List (Nat × Nat × Nat))
    (hs : s.uuid_time + ins.length < 2 ^ 48)
    (hc : ∀ p ∈ ins, p.1 / 1000 + ins.length < 2 ^ 48) :
    List.Pairwise (· < ·) ((runB s ins).1.map field48) := by
  have h := runB_chain ins s hs hc
  rw [List.chain'_iff_pairwise] at h
  exact h.of_cons

/-- Witness for C2 at a concrete input. -/
theorem C2_witness :
    ((⟨true, 0, 0⟩ : StateB).uuid_time +
        ([(1000, 1, 2), (2500, 3, 4), (9000, 5, 6)] : List (Nat × Nat × Nat)).length
        < 2 ^ 48 ∧
     ∀ p ∈ ([(1000, 1, 2), (2500, 3, 4), (9000, 5, 6)] : List (Nat × Nat × Nat)),
       p.1 / 1000 +
        ([(1000, 1, 2), (2500, 3, 4), (9000, 5, 6)] : List (Nat × Nat × Nat)).length
        < 2 ^ 48) ∧
    List.Pairwise (· < ·)
      ((runB ⟨true, 0, 0⟩ [(1000, 1, 2), (2500, 3, 4), (9000, 5, 6)]).1.map field48) :=
  ⟨⟨by decide, by decide⟩,
   C2_theorem ⟨true, 0, 0⟩ [(1000, 1, 2), (2500, 3, 4), (9000, 5, 6)]
     (by decide) (by decide)⟩

/-- Claim C3, counterexample to the statement as given: with the clock
stalled at 0 and starting from `last_tick = 0`, after `K = 2` calls the
debt counter is 3, not `K = 2` — each stalled call borrows
`last_tick - tv + 1`, which grows by one per call. -/
theorem C3_counterexample :
    (my_uuid_v7A (my_uuid_v7A ⟨true, 0, 0⟩ 0 0 true).state
        0 0 true).state.borrowed_microseconds = 3 ∧ (3 : Nat) ≠ 2 := by
  decide

/-- Claim C3 (amended): if the clock returns the same value `c` on `K`
consecutive calls starting from `last_tick = c` and debt 0, the emitted
ticks are `c+1, c+2, …, c+K` (strictly increasing), and the debt after
the `K` calls is the triangular number `K*(K+1)/2` — not `K` — provided
no backpressure fires (`K*(K+1)/2 ≤ 500000`) and no `uint64` wrap occurs. -/
theorem C3_theorem (K c : Nat) (h1 : c + K < 2 ^ 64)
    (h2 : K * (K + 1) / 2 ≤ 500000) :
    runATicks ⟨true, 0, c⟩ (List.replicate K (c, 0)) =
      ((List.range K).map (fun t => c + 1 + t),
       ⟨true, K * (K + 1) / 2, c + K⟩) ∧
    List.Pairwise (· < ·) (runATicks ⟨true, 0, c⟩ (List.replicate K (c, 0))).1 := by
  have h := runA_stalled K 0 0 c (by omega) (by omega)
  simp only [Nat.add_zero, Nat.zero_add, Nat.mul_zero] at h
  refine ⟨h, ?_⟩
  rw [h]
  exact List.Pairwise.map _ (fun a b hab => by omega) (List.pairwise_lt_range K)

/-- Witness for C3 at a concrete input. -/
theorem C3_witness :
    (10 + 4 < 2 ^ 64 ∧ 4 * (4 + 1) / 2 ≤ 500000) ∧
    runATicks ⟨true, 0, 10⟩ (List.replicate 4 (10, 0)) =
      ((List.range 4).map (fun t => 10 + 1 + t),
       ⟨true, 4 * (4 + 1) / 2, 10 + 4⟩) ∧
    List.Pairwise (· < ·) (runATicks ⟨true, 0, 10⟩ (List.replicate 4 (10, 0))).1 :=
  ⟨⟨by decide, by decide⟩, C3_theorem 4 10 (by decide) (by decide)⟩

/-- Claim C4: in the sub-millisecond variant, a call whose stalled-clock
adjustment pushes the debt above the 500000 ceiling passes exactly one
sleep request, with argument `SLEEP_MILLISECONDS = 250`, to the sleep
collaborator `my_sleep` and then lowers the adjusted debt by half the
ceiling (250000); a stalled call that stays at or below the ceiling and a
call on an advancing clock perform no sleep. -/
theorem C4_theorem (s : StateA) (hr r : Nat) (ok : Bool) :
    (hr ≤ s.uuid_time →
      500000 < (s.borrowed_microseconds + (s.uuid_time - hr + 1)) % 2 ^ 64 →
      (my_uuid_v7A s hr r ok).sleeps = [250] ∧
      (my_uuid_v7A s hr r ok).state.borrowed_microseconds =
        (s.borrowed_microseconds + (s.uuid_time - hr + 1)) % 2 ^ 64 - 250000) ∧
    (hr ≤ s.uuid_time →
      (s.borrowed_microseconds + (s.uuid_time - hr + 1)) % 2 ^ 64 ≤ 500000 →
      (my_uuid_v7A s hr r ok).sleeps = []) ∧
    (s.uuid_time < hr → (my_uuid_v7A s hr r ok).sleeps = []) := by
  refine ⟨fun h1 h2 => ⟨?_, ?_⟩, fun h1 h2 => ?_, fun h1 => ?_⟩
  · rw [v7A_sleeps]
    exact (reconcileA_backpressure _ _ _ h1 h2).1
  · rw [v7A_state]
    exact (reconcileA_backpressure _ _ _ h1 h2).2
  · rw [v7A_sleeps]
    exact reconcileA_no_sleep_stalled _ _ _ h1 h2
  · rw [v7A_sleeps]
    exact reconcileA_no_sleep_advance _ _ _ h1

/-- Witness for C4 at a concrete input (a call that pushes the debt from
499990 to 500041, above the ceiling). -/
theorem C4_witness :
    ((50 : Nat) ≤ 100 ∧
     500000 < ((499990 : Nat) + (100 - 50 + 1)) % 2 ^ 64) ∧
    (my_uuid_v7A ⟨true, 499990, 100⟩ 50 9 true).sleeps = [250] ∧
    (my_uuid_v7A ⟨true, 499990, 100⟩ 50 9 true).state.borrowed_microseconds =
      ((499990 : Nat) + (100 - 50 + 1)) % 2 ^ 64 - 250000 :=
  ⟨⟨by decide, by decide⟩,
   (C4_theorem ⟨true, 499990, 100⟩ 50 9 true).1 (by decide) (by decide)⟩

/-- Claim C5, counterexample to the statement as given: from the
reachable state with debt 3 and `last_tick = 2` (two stalled calls from
the zero state), a call with clock reading 65539 has `tv > last_tick`,
positive debt, and gap `tv - last_tick - 1 = 65536`; the claimed
repayment `min(3, 65536) = 3` would leave debt 0, but the code's
`(uint16)` cast truncates the gap to `65536 % 2^16 = 0`, so nothing is
repaid and the debt stays 3. -/
theorem C5_counterexample :
    (my_uuid_v7A (my_uuid_v7A (my_uuid_v7A ⟨true, 0, 0⟩ 0 0 true).state 0 0 true).state
        65539 0 true).state.borrowed_microseconds ≠
      3 - min 3 (65539 - 2 - 1) := by
  decide

/-- Claim C5 (amended): on a call with `tv > last_tick` and positive
debt, the repayment is `min(debt, (tv - last_tick - 1) mod 2^16)` — the
gap is truncated to 16 bits by the `(uint16)` cast before the minimum is
taken — the emitted tick is `tv` minus that repayment, and the debt
decreases by exactly that repayment. -/
theorem C5_theorem (s : StateA) (hr r : Nat) (ok : Bool)
    (h1 : s.uuid_time < hr) (h2 : 0 < s.borrowed_microseconds) :
    (my_uuid_v7A s hr r ok).state.uuid_time =
      hr - min s.borrowed_microseconds ((hr - s.uuid_time - 1) % 2 ^ 16) ∧
    (my_uuid_v7A s hr r ok).state.borrowed_microseconds =
      s.borrowed_microseconds -
        min s.borrowed_microseconds ((hr - s.uuid_time - 1) % 2 ^ 16) := by
  rw [v7A_state]
  unfold reconcileA
  rw [if_pos h1, if_pos (by omega : s.borrowed_microseconds ≠ 0)]
  exact ⟨rfl, rfl⟩

/-- Witness for C5 at a concrete input. -/
theorem C5_witness :
    ((⟨true, 5, 10⟩ : StateA).uuid_time < 20 ∧
     0 < (⟨true, 5, 10⟩ : StateA).borrowed_microseconds) ∧
    (my_uuid_v7A ⟨true, 5, 10⟩ 20 0 true).state.uuid_time =
      20 - min 5 ((20 - 10 - 1) % 2 ^ 16) ∧
    (my_uuid_v7A ⟨true, 5, 10⟩ 20 0 true).state.borrowed_microseconds =
      5 - min 5 ((20 - 10 - 1) % 2 ^ 16) :=
  ⟨⟨by decide, by decide⟩,
   C5_theorem ⟨true, 5, 10⟩ 20 0 true (by decide) (by decide)⟩

/-- Claim C6, counterexample to the statement as given: in the coarse
variant (`src/mysys/my_uuid_v7.c`) a call on which both CSPRNG draws fail
invokes `my_printf_error` zero times — the file ignores the
`my_random_bytes` return values — so the failure is not handled
identically to the random generator, which reports it. -/
theorem C6_counterexample :
    (my_uuid_v7B ⟨true, 0, 0⟩ 1000 4 5 false false).errors = 0 :=
  rfl

/-- Claim C6 (amended): in the sub-millisecond variant a failed CSPRNG
draw is reported through the fatal-error collaborator exactly once and
the call still produces a full 16-byte identifier, exactly like the
random generator; the coarse variant also always produces the full
16-byte identifier but never reports a draw failure (its `my_random_bytes`
results are discarded). -/
theorem C6_theorem (sA : StateA) (hrA rA : Nat) (sB : StateB) (hrB ra rb : Nat) :
    (my_uuid_v7A sA hrA rA false).errors = 1 ∧
    (my_uuid_v7A sA hrA rA true).errors = 0 ∧
    (my_uuid_v7A sA hrA rA false).out.length = 16 ∧
    (my_uuid_v7B sB hrB ra rb false false).errors = 0 ∧
    (my_uuid_v7B sB hrB ra rb false false).out.length = 16 := by
  refine ⟨rfl, rfl, ?_, rfl, ?_⟩
  · rw [v7A_out]
    exact pack_length _ _ _
  · rw [v7B_out]
    exact pack_length _ _ _

theorem low12_pack (v y r : Nat) (hr : r < 4096) :
    low12 (beBytes 6 v ++ beBytes 2 (0x7000 + r) ++ beBytes 8 y) = r := by
  rw [low12, byte6_pack, byte7_pack]
  omega

/-- Claim C7: in the random generator, the number of `my_printf_error`
invocations equals the number of `my_random_bytes` draws that are
actually made and fail (the short-circuiting `||` makes at most one draw
fail per call, and that failure is reported exactly once), and the call
always returns a full 16-byte identifier. -/
theorem C7_theorem (ok1 ok2 ok3 : Bool) (a b c : Nat) :
    (my_uuid_v4 ok1 ok2 ok3 a b c).errors = failedDrawsV4 ok1 ok2 ok3 ∧
    (my_uuid_v4 ok1 ok2 ok3 a b c).out.length = 16 := by
  constructor
  · cases ok1 <;> cases ok2 <;> cases ok3 <;> rfl
  · rw [v4_out]
    exact pack_length _ _ _

/-- Claim C8: for every identifier produced by any of the three
generators, whatever the random words, outcomes, clock reading and state,
the top 4 bits of byte 6 equal the version tag (4 for the random
generator, 7 for both monotonic variants) and the top 2 bits of byte 8
equal the variant tag, binary `10` (= 2). -/
theorem C8_theorem (ok1 ok2 ok3 : Bool) (a b c : Nat)
    (sA : StateA) (hrA rA : Nat) (okA : Bool)
    (sB : StateB) (hrB ra rb : Nat) (oa ob : Bool) :
    (my_uuid_v4 ok1 ok2 ok3 a b c).out.getD 6 0 / 16 = 4 ∧
    (my_uuid_v4 ok1 ok2 ok3 a b c).out.getD 8 0 / 64 = 2 ∧
    (my_uuid_v7A sA hrA rA okA).out.getD 6 0 / 16 = 7 ∧
    (my_uuid_v7A sA hrA rA okA).out.getD 8 0 / 64 = 2 ∧
    (my_uuid_v7B sB hrB ra rb oa ob).out.getD 6 0 / 16 = 7 ∧
    (my_uuid_v7B sB hrB ra rb oa ob).out.getD 8 0 / 64 = 2 := by
  refine ⟨?_, ?_, ?_, ?_, ?_, ?_⟩
  · rw [v4_out, byte6_pack]
    omega
  · rw [v4_out, byte8_pack]
    omega
  · rw [v7A_out, byte6_pack]
    omega
  · rw [v7A_out, byte8_pack]
    omega
  · rw [v7B_out, byte6_pack]
    omega
  · rw [v7B_out, byte8_pack]
    omega

set_option maxRecDepth 8000 in
/-- Claim C9, counterexample to the statement as given: the image of the
sub-millisecond scaling map on its whole domain 0–999 does not cover the
12-bit range — the value 4095 (and in fact every value above 4091) is
never attained. -/
theorem C9_counterexample :
    4095 ∉ (List.range 1000).map microsTo12Bit := by
  decide

/-- Claim C9 (amended): the 12-bit field stored in bytes 6-7 of a
sub-millisecond-variant identifier equals the scaling map applied to the
reconciled tick modulo 1000; the map is strictly monotone (hence
injective) on 0–999 and spreads 0–999 across the 12-bit range from 0 up
to 4091 — but its image does not cover all of 0–4095. -/
theorem C9_theorem :
    (∀ m1 m2 : Nat, m1 < m2 → m2 ≤ 999 → microsTo12Bit m1 < microsTo12Bit m2) ∧
    (∀ m : Nat, m ≤ 999 → microsTo12Bit m ≤ 4091) ∧
    microsTo12Bit 0 = 0 ∧ microsTo12Bit 999 = 4091 ∧
    (∀ (s : StateA) (hr r : Nat) (ok : Bool),
      low12 (my_uuid_v7A s hr r ok).out =
        microsTo12Bit ((my_uuid_v7A s hr r ok).state.uuid_time % 1000)) := by
  have hbound : ∀ m : Nat, m ≤ 999 → microsTo12Bit m ≤ 4091 := by
    intro m hm
    unfold microsTo12Bit
    omega
  refine ⟨?_, hbound, rfl, rfl, ?_⟩
  · intro m1 m2 h1 _
    unfold microsTo12Bit
    omega
  · intro s hr r ok
    rw [v7A_out, v7A_state]
    have hb : microsTo12Bit
        ((reconcileA s.uuid_time s.borrowed_microseconds hr).1 % 1000) ≤ 4091 :=
      hbound _ (by omega)
    have he : microsTo12Bit
          ((reconcileA s.uuid_time s.borrowed_microseconds hr).1 % 1000) % 0x1000 =
        microsTo12Bit
          ((reconcileA s.uuid_time s.borrowed_microseconds hr).1 % 1000) :=
      Nat.mod_eq_of_lt (by omega)
    rw [he]
    exact low12_pack _ _ _ (by omega)

/-- Witness for C9 at concrete inputs. -/
theorem C9_witness :
    (3 < 5 ∧ 5 ≤ 999) ∧
    microsTo12Bit 3 < microsTo12Bit 5 ∧
    low12 (my_uuid_v7A ⟨true, 0, 0⟩ 1234567 42 true).out =
      microsTo12Bit ((my_uuid_v7A ⟨true, 0, 0⟩ 1234567 42 true).state.uuid_time % 1000) :=
  ⟨⟨by decide, by decide⟩,
   C9_theorem.1 3 5 (by decide) (by decide),
   C9_theorem.2.2.2.2 ⟨true, 0, 0⟩ 1234567 42 true⟩

/-- Claim C10: in both monotonic variants, `end` followed by `init`
resets the debt counter to 0 but leaves `uuid_time` at its last emitted
value, so the next `generate` call still emits a tick strictly above
every tick emitted before the `end`/`init` cycle (under the same
no-wraparound proviso as C1). -/
theorem C10_theorem (sA : StateA) (sB : StateB)
    (hA : sA.inited = true) (hB : sB.inited = true)
    (hA2 : sA.uuid_time + 1 < 2 ^ 64) (hB2 : sB.uuid_time + 1 < 2 ^ 64) :
    my_uuid_v7_initA (my_uuid_v7_endA sA) = ⟨true, 0, sA.uuid_time⟩ ∧
    my_uuid_v7_initB (my_uuid_v7_endB sB) = ⟨true, 0, sB.uuid_time⟩ ∧
    (∀ hr r ok, sA.uuid_time <
      (my_uuid_v7A (my_uuid_v7_initA (my_uuid_v7_endA sA)) hr r ok).state.uuid_time) ∧
    (∀ hr ra rb oa ob, sB.uuid_time <
      (my_uuid_v7B (my_uuid_v7_initB (my_uuid_v7_endB sB)) hr ra rb oa ob).state.uuid_time) := by
  have eA : my_uuid_v7_initA (my_uuid_v7_endA sA) = ⟨true, 0, sA.uuid_time⟩ := by
    unfold my_uuid_v7_endA
    rw [if_pos hA]
    unfold my_uuid_v7_initA
    rw [if_neg (by simp)]
  have eB : my_uuid_v7_initB (my_uuid_v7_endB sB) = ⟨true, 0, sB.uuid_time⟩ := by
    unfold my_uuid_v7_endB
    rw [if_pos hB]
    unfold my_uuid_v7_initB
    rw [if_neg (by simp)]
  refine ⟨eA, eB, ?_, ?_⟩
  · intro hr r ok
    rw [eA, v7A_state]
    exact reconcileA_tick_gt sA.uuid_time 0 hr hA2
  · intro hr ra rb oa ob
    rw [eB, v7B_state]
    exact reconcileB_tick_gt sB.uuid_time 0 (hr / 1000) hB2

/-- Witness for C10 at a concrete input. -/
theorem C10_witness :
    ((⟨true, 123, 456⟩ : StateA).inited = true ∧
     (⟨true, 9, 77⟩ : StateB).inited = true ∧
     (⟨true, 123, 456⟩ : StateA).uuid_time + 1 < 2 ^ 64 ∧
     (⟨true, 9, 77⟩ : StateB).uuid_time + 1 < 2 ^ 64) ∧
    my_uuid_v7_initA (my_uuid_v7_endA ⟨true, 123, 456⟩) = ⟨true, 0, 456⟩ ∧
    my_uuid_v7_initB (my_uuid_v7_endB ⟨true, 9, 77⟩) = ⟨true, 0, 77⟩ ∧
    (∀ hr r ok, (456 : Nat) <
      (my_uuid_v7A (my_uuid_v7_initA (my_uuid_v7_endA ⟨true, 123, 456⟩)) hr r ok).state.uuid_time) ∧
    (∀ hr ra rb oa ob, (77 : Nat) <
      (my_uuid_v7B (my_uuid_v7_initB (my_uuid_v7_endB ⟨true, 9, 77⟩)) hr ra rb oa ob).state.uuid_time) :=
  ⟨⟨rfl, rfl, by decide, by decide⟩,
   C10_theorem ⟨true, 123, 456⟩ ⟨true, 9, 77⟩ rfl rfl (by decide) (by decide)⟩

end UuidSrv
